import Mathlib

/-!
Verification of the type-erased dataflow analysis engine
(TypeErasedDataflowAnalysis.cpp): a worklist fixpoint algorithm over a
control-flow graph, generalized over an abstract domain supplied as a
type-erased analysis capability.

The engine itself (predecessor join policy, transfer engine, fixpoint
driver) is embedded from the source file.  External collaborators that the
source only consumes through an interface (the Environment capability, the
builtin statement transfer, the worklist scheduler) are modelled from the
spec at that interface boundary.
-/

namespace Dataflow

/-- Opaque statement identifier (a clang `Stmt` pointer, compared by identity). -/
abbrev Stmt := Nat

/-- Dense integer block identifier (`CFGBlock::getBlockID`). -/
abbrev BlockID := Nat

/-- Opaque storage-location identifier (a `StorageLocation` pointer). -/
abbrev Loc := Nat

/-- Modelled from the spec: a member declaration at the AST boundary; the engine
only consults whether the member type has reference semantics
(`Member->getType()->isReferenceType()`). -/
structure FieldDecl where
  fieldID : Nat
  isReferenceType : Bool
deriving DecidableEq

/-- A constructor member initializer: the engine reads its init expression
(`getInit`) and its target member (`getMember`); both are asserted non-null in
the source, so they are total here. -/
structure CXXCtorInitializer where
  getInit : Stmt
  getMember : FieldDecl
deriving DecidableEq

/-- Modelled from the spec: dataflow values stored in the Environment.  The
engine creates `ReferenceValue` objects aliasing a storage location
(`std::make_unique<ReferenceValue>(*InitStmtLoc)`); all other values are opaque
to it. -/
inductive Value where
  | referenceValue (pointeeLoc : Loc)
  | opaqueValue (id : Nat)
deriving DecidableEq

/-- One element of a basic block: the engine distinguishes statement elements,
initializer elements, and ignores the rest (`CFGElement::getKind` switch). -/
inductive CFGElement where
  | statement (S : Stmt)
  | initializer (I : CXXCtorInitializer)
  | other
deriving DecidableEq

/-- A basic block of the CFG, at the read-only interface the engine consumes:
identifier, predecessor and successor edges (an edge can be null, hence
`Option`), the ordered element list, the non-returning-element flag, the
temporary-destructor-branch terminator classification, and the terminator
statement. -/
structure CFGBlock where
  blockID : BlockID
  preds : List (Option BlockID)
  succs : List (Option BlockID)
  elements : List CFGElement
  hasNoReturnElement : Bool
  isTemporaryDtorsBranch : Bool
  terminatorStmt : Option Stmt
deriving DecidableEq

/-- The analysis context: the CFG (block list plus distinguished entry block)
and the statement-to-containing-block lookup (`getStmtToBlock`).  The number of
block identifiers is `blocks.length` (`CFG::size`). -/
structure ControlFlowContext where
  blocks : List CFGBlock
  entry : CFGBlock
  stmtToBlock : Stmt → Option BlockID

/-- Resolve a block identifier to its block.  In the source, predecessor and
successor edges hold direct pointers; an unresolvable identifier corresponds to
a null edge. -/
def findBlock (CFCtx : ControlFlowContext) (id : BlockID) : Option CFGBlock :=
  CFCtx.blocks.find? (fun B => B.blockID == id)

/-- Type-erased abstract state: a lattice element of the plugin domain paired
with an Environment. -/
structure TypeErasedDataflowAnalysisState (L E : Type) where
  Lattice : L
  Env : E
deriving DecidableEq

/-- The type-erased analysis capability consumed by the engine: initial lattice
element, transfer, join (mutates its first argument in the source, so modelled
as returning the new value), equality, and the builtin-transfer flag. -/
structure TypeErasedDataflowAnalysis (L E : Type) where
  typeErasedInitialElement : L
  transferTypeErased : Stmt → L → E → L × E
  joinTypeErased : L → L → L
  isEqualTypeErased : L → L → Bool
  applyBuiltinTransfer : Bool

/-- Modelled from the spec: the Environment capability (§6) together with the
external builtin statement transfer (`Transfer.h`), supplied as operations over
an abstract environment type `E`.  Mutating members of the source are modelled
as returning the new environment. -/
structure EnvOps (E : Type) where
  join : E → E → E
  equivalentTo : E → E → Bool
  getThisPointeeStorageLocation : E → Loc
  getStorageLocation : E → Stmt → Option Loc
  getValue : E → Loc → Option Value
  setValue : E → Loc → Value → E
  getChild : Loc → FieldDecl → Loc
  transfer : (Stmt → Option E) → Stmt → E → E

/-- The Block State Store: one slot per block identifier, each holding either
`none` (not evaluated yet) or a converged abstract state. -/
abbrev Store (L E : Type) := List (Option (TypeErasedDataflowAnalysisState L E))

/-- Read a Store slot (`BlockStates[ID]`); an out-of-range identifier reads as
unset, which does not occur for a well-formed CFG. -/
def getSlot {L E : Type} (BlockStates : Store L E) (i : Nat) :
    Option (TypeErasedDataflowAnalysisState L E) :=
  (BlockStates[i]?).getD none

/-- Write a Store slot (`BlockStates[ID] = State`). -/
def setSlot {L E : Type} (BlockStates : Store L E) (i : Nat)
    (v : Option (TypeErasedDataflowAnalysisState L E)) : Store L E :=
  BlockStates.set i v

/-- `StmtToEnvMapImpl::getEnvironment`: resolve the block containing a
statement and return the Environment of the stored state of that block.  The
source asserts both lookups succeed; the model returns `none` outside the
contract. -/
def StmtToEnvMapImpl {L E : Type} (CFCtx : ControlFlowContext)
    (BlockToState : Store L E) : Stmt → Option E :=
  fun S =>
    (CFCtx.stmtToBlock S).bind fun bid =>
      (getSlot BlockToState bid).map (fun st => st.Env)

/-- The deduplicated, pruned predecessor list built at the start of
`computeBlockInputState`: all predecessors are inserted into a set, and for a
temporary-destructor-branch terminator whose first successor block has a
non-returning element, the block containing the terminator statement is erased
from the set. -/
def prunedPreds (CFCtx : ControlFlowContext) (Block : CFGBlock) :
    List (Option BlockID) :=
  let Preds := Block.preds.dedup
  if Block.isTemporaryDtorsBranch then
    match Block.succs.head? with
    | some (some succId) =>
      match findBlock CFCtx succId with
      | some SuccBlock =>
        if SuccBlock.hasNoReturnElement then
          match Block.terminatorStmt with
          | some TS =>
            match CFCtx.stmtToBlock TS with
            | some sb => Preds.erase (some sb)
            | none => Preds
          | none => Preds
        else Preds
      | none => Preds
    | _ => Preds
  else Preds

/-- Merging one state into the accumulator: `Analysis.joinTypeErased` on the
lattice elements paired with `Env.join` on the Environments. -/
def joinStates {L E : Type} (Analysis : TypeErasedDataflowAnalysis L E)
    (Ops : EnvOps E) (a b : TypeErasedDataflowAnalysisState L E) :
    TypeErasedDataflowAnalysisState L E :=
  ⟨Analysis.joinTypeErased a.Lattice b.Lattice, Ops.join a.Env b.Env⟩

/-- The body of the predecessor loop of `computeBlockInputState`: skip a null
(unresolvable) predecessor, skip one with a non-returning element, skip one
whose Store slot is unset; the first surviving state seeds the accumulator and
each further one is joined into it. -/
def joinPredStep {L E : Type} (CFCtx : ControlFlowContext) (Ops : EnvOps E)
    (Analysis : TypeErasedDataflowAnalysis L E) (BlockStates : Store L E)
    (MaybeState : Option (TypeErasedDataflowAnalysisState L E))
    (PredOpt : Option BlockID) :
    Option (TypeErasedDataflowAnalysisState L E) :=
  match PredOpt.bind (findBlock CFCtx) with
  | none => MaybeState
  | some Pred =>
    if Pred.hasNoReturnElement then MaybeState
    else
      match getSlot BlockStates Pred.blockID with
      | none => MaybeState
      | some PredState =>
        match MaybeState with
        | some st => some (joinStates Analysis Ops st PredState)
        | none => some PredState

/-- Computes the input state for a given basic block by joining the output
states of the already-evaluated predecessors (`computeBlockInputState`). -/
def computeBlockInputState {L E : Type} (CFCtx : ControlFlowContext)
    (Ops : EnvOps E) (BlockStates : Store L E) (Block : CFGBlock) (InitEnv : E)
    (Analysis : TypeErasedDataflowAnalysis L E) :
    TypeErasedDataflowAnalysisState L E :=
  let Preds := prunedPreds CFCtx Block
  let MaybeState : Option (TypeErasedDataflowAnalysisState L E) :=
    Preds.foldl (joinPredStep CFCtx Ops Analysis BlockStates) none
  match MaybeState with
  | some st => st
  | none => ⟨Analysis.typeErasedInitialElement, InitEnv⟩

/-- A trace event: the observer callback receives the transferred statement and
the resulting state. -/
abbrev Event (L E : Type) := Stmt × TypeErasedDataflowAnalysisState L E

/-- Transfers `State` by evaluating a statement element (`transferCFGStmt`):
builtin transfer when the plugin opts in, then the plugin transfer, then the
observer callback (modelled as an emitted trace event when the callback is
supplied). -/
def transferCFGStmt {L E : Type} (Ops : EnvOps E) (CFCtx : ControlFlowContext)
    (BlockStates : Store L E) (S : Stmt)
    (Analysis : TypeErasedDataflowAnalysis L E)
    (State : TypeErasedDataflowAnalysisState L E)
    (HandleTransferredStmt : Bool) :
    TypeErasedDataflowAnalysisState L E × List (Event L E) :=
  let State1 :=
    if Analysis.applyBuiltinTransfer then
      { State with
        Env := Ops.transfer (StmtToEnvMapImpl CFCtx BlockStates) S State.Env }
    else State
  let p := Analysis.transferTypeErased S State1.Lattice State1.Env
  let State2 : TypeErasedDataflowAnalysisState L E := ⟨p.1, p.2⟩
  (State2, if HandleTransferredStmt then [(S, State2)] else [])

/-- Transfers `State` by evaluating an initializer element
(`transferCFGInitializer`): resolve the init expression location and value,
silently returning on failure; then bind the member location under the
receiver to a fresh reference value (reference members) or to a copy of the
source value. -/
def transferCFGInitializer {L E : Type} (Ops : EnvOps E)
    (CfgInit : CXXCtorInitializer)
    (State : TypeErasedDataflowAnalysisState L E) :
    TypeErasedDataflowAnalysisState L E :=
  let ThisLoc := Ops.getThisPointeeStorageLocation State.Env
  let InitStmt := CfgInit.getInit
  match Ops.getStorageLocation State.Env InitStmt with
  | none => State
  | some InitStmtLoc =>
    match Ops.getValue State.Env InitStmtLoc with
    | none => State
    | some InitStmtVal =>
      let Member := CfgInit.getMember
      if Member.isReferenceType then
        let MemberLoc := Ops.getChild ThisLoc Member
        { State with
          Env := Ops.setValue State.Env MemberLoc
            (Value.referenceValue InitStmtLoc) }
      else
        let MemberLoc := Ops.getChild ThisLoc Member
        { State with Env := Ops.setValue State.Env MemberLoc InitStmtVal }

/-- The body of the element loop of `transferBlock`: a statement element goes
through `transferCFGStmt` (appending its observer event to the trace), an
initializer element goes through `transferCFGInitializer` when builtin
transfer is enabled, and any other element kind is ignored. -/
def transferElementStep {L E : Type} (Ops : EnvOps E)
    (CFCtx : ControlFlowContext) (BlockStates : Store L E)
    (Analysis : TypeErasedDataflowAnalysis L E) (HandleTransferredStmt : Bool)
    (acc : TypeErasedDataflowAnalysisState L E × List (Event L E))
    (Element : CFGElement) :
    TypeErasedDataflowAnalysisState L E × List (Event L E) :=
  match Element with
  | CFGElement.statement S =>
    let r := transferCFGStmt Ops CFCtx BlockStates S Analysis acc.1
      HandleTransferredStmt
    (r.1, acc.2 ++ r.2)
  | CFGElement.initializer I =>
    if Analysis.applyBuiltinTransfer then
      (transferCFGInitializer Ops I acc.1, acc.2)
    else acc
  | CFGElement.other => acc

/-- Evaluates the elements of a block in declaration order starting from the
joined input state (`transferBlock`), additionally collecting the observer
trace. -/
def transferBlock {L E : Type} (Ops : EnvOps E) (CFCtx : ControlFlowContext)
    (BlockStates : Store L E) (Block : CFGBlock) (InitEnv : E)
    (Analysis : TypeErasedDataflowAnalysis L E)
    (HandleTransferredStmt : Bool) :
    TypeErasedDataflowAnalysisState L E × List (Event L E) :=
  let State0 := computeBlockInputState CFCtx Ops BlockStates Block InitEnv
    Analysis
  Block.elements.foldl
    (transferElementStep Ops CFCtx BlockStates Analysis HandleTransferredStmt)
    (State0, [])

/-- Modelled from the spec: the worklist scheduler enqueue
(`DataflowWorklistBase::enqueueBlock`): null blocks are ignored and a block
already pending (tracked by identifier) is not enqueued twice. -/
def enqueueBlock (Worklist : List CFGBlock) (Block : Option CFGBlock) :
    List CFGBlock :=
  match Block with
  | none => Worklist
  | some B =>
    if Worklist.any (fun P => P.blockID == B.blockID) then Worklist
    else Worklist ++ [B]

/-- Modelled from the spec: `ForwardDataflowWorklist::enqueueSuccessors`
enqueues every successor of a block.  The post-order-derived priority of the
real scheduler is abstracted as queue order, on which no claim depends. -/
def enqueueSuccessors (CFCtx : ControlFlowContext) (Worklist : List CFGBlock)
    (Block : CFGBlock) : List CFGBlock :=
  Block.succs.foldl
    (fun wl succ => enqueueBlock wl (succ.bind (findBlock CFCtx)))
    Worklist

/-- Error code of the timeout failure (`std::errc::timed_out`). -/
inductive ErrorCode where
  | timed_out
deriving DecidableEq

/-- An `llvm::StringError` as produced by `createStringError`. -/
structure StringError where
  code : ErrorCode
  message : String
deriving DecidableEq

/-- The single failure the engine constructs. -/
def timeoutError : StringError :=
  ⟨ErrorCode.timed_out, "maximum number of iterations reached"⟩

/-- The iteration cap (`MaxIterations = 1 << 16`). -/
def MaxIterations : Nat := 2 ^ 16

/-- The main fixpoint loop of `runTypeErasedDataflowAnalysis`.  The source
keeps a counter `Iterations`, incremented on every dequeue, and aborts when it
exceeds `MaxIterations`; here `remaining = MaxIterations - Iterations` counts
the dequeues still allowed, so a dequeue with `remaining = 0` is exactly the
dequeue on which `++Iterations > MaxIterations` fires. -/
def runAnalysisLoop {L E : Type} (Ops : EnvOps E) (CFCtx : ControlFlowContext)
    (Analysis : TypeErasedDataflowAnalysis L E) (InitEnv : E) :
    Nat → List CFGBlock → Store L E → Except StringError (Store L E)
  | _, [], BlockStates => Except.ok BlockStates
  | 0, _ :: _, _ => Except.error timeoutError
  | Nat.succ remaining, Block :: rest, BlockStates =>
    let OldBlockState := getSlot BlockStates Block.blockID
    let NewBlockState :=
      (transferBlock Ops CFCtx BlockStates Block InitEnv Analysis false).1
    if (match OldBlockState with
        | some Old =>
          Analysis.isEqualTypeErased Old.Lattice NewBlockState.Lattice &&
            Ops.equivalentTo Old.Env NewBlockState.Env
        | none => false) then
      runAnalysisLoop Ops CFCtx Analysis InitEnv remaining rest BlockStates
    else
      let BlockStates2 :=
        setSlot BlockStates Block.blockID (some NewBlockState)
      if Block.hasNoReturnElement then
        runAnalysisLoop Ops CFCtx Analysis InitEnv remaining rest BlockStates2
      else
        runAnalysisLoop Ops CFCtx Analysis InitEnv remaining
          (enqueueSuccessors CFCtx rest Block) BlockStates2

/-- Instrumented twin of `runAnalysisLoop` following exactly the same branch
structure, returning the number of dequeues performed (the dequeue on which
the iteration cap fires included). -/
def runLoopDequeues {L E : Type} (Ops : EnvOps E) (CFCtx : ControlFlowContext)
    (Analysis : TypeErasedDataflowAnalysis L E) (InitEnv : E) :
    Nat → List CFGBlock → Store L E → Nat
  | _, [], _ => 0
  | 0, _ :: _, _ => 1
  | Nat.succ remaining, Block :: rest, BlockStates =>
    let OldBlockState := getSlot BlockStates Block.blockID
    let NewBlockState :=
      (transferBlock Ops CFCtx BlockStates Block InitEnv Analysis false).1
    if (match OldBlockState with
        | some Old =>
          Analysis.isEqualTypeErased Old.Lattice NewBlockState.Lattice &&
            Ops.equivalentTo Old.Env NewBlockState.Env
        | none => false) then
      1 + runLoopDequeues Ops CFCtx Analysis InitEnv remaining rest BlockStates
    else
      let BlockStates2 :=
        setSlot BlockStates Block.blockID (some NewBlockState)
      if Block.hasNoReturnElement then
        1 + runLoopDequeues Ops CFCtx Analysis InitEnv remaining rest
          BlockStates2
      else
        1 + runLoopDequeues Ops CFCtx Analysis InitEnv remaining
          (enqueueSuccessors CFCtx rest Block) BlockStates2

/-- The entry point `runTypeErasedDataflowAnalysis`: size the Store to one
slot per block identifier, seed the entry block slot, enqueue the successors
of the entry block, and run the fixpoint loop. -/
def runTypeErasedDataflowAnalysis {L E : Type} (Ops : EnvOps E)
    (CFCtx : ControlFlowContext) (Analysis : TypeErasedDataflowAnalysis L E)
    (InitEnv : E) : Except StringError (Store L E) :=
  let BlockStates : Store L E := List.replicate CFCtx.blocks.length none
  let Entry := CFCtx.entry
  let BlockStates2 := setSlot BlockStates Entry.blockID
    (some ⟨Analysis.typeErasedInitialElement, InitEnv⟩)
  let Worklist := enqueueSuccessors CFCtx [] Entry
  runAnalysisLoop Ops CFCtx Analysis InitEnv MaxIterations Worklist BlockStates2

/-! ## Characterization of the predecessor join policy -/

/-- The contribution of one predecessor edge to the join: `none` when the edge
is null (or unresolvable), when the predecessor block carries a non-returning
element, or when its Store slot is unset; otherwise the stored state. -/
def predContribution {L E : Type} (CFCtx : ControlFlowContext)
    (BlockStates : Store L E) (PredOpt : Option BlockID) :
    Option (TypeErasedDataflowAnalysisState L E) :=
  match PredOpt.bind (findBlock CFCtx) with
  | none => none
  | some Pred =>
    if Pred.hasNoReturnElement then none
    else getSlot BlockStates Pred.blockID

/-- Join of a list of surviving predecessor states: the first state seeds the
accumulator and the rest are merged into it; with no contribution at all the
input state is the initial lattice element paired with the initial
Environment. -/
def joinedInputState {L E : Type} (Analysis : TypeErasedDataflowAnalysis L E)
    (Ops : EnvOps E) (InitEnv : E)
    (contribs : List (TypeErasedDataflowAnalysisState L E)) :
    TypeErasedDataflowAnalysisState L E :=
  match contribs with
  | [] => ⟨Analysis.typeErasedInitialElement, InitEnv⟩
  | s :: rest => rest.foldl (joinStates Analysis Ops) s

theorem joinPredStep_contribution {L E : Type} (CFCtx : ControlFlowContext)
    (Ops : EnvOps E) (Analysis : TypeErasedDataflowAnalysis L E)
    (BlockStates : Store L E)
    (acc : Option (TypeErasedDataflowAnalysisState L E))
    (p : Option BlockID) :
    joinPredStep CFCtx Ops Analysis BlockStates acc p =
      match predContribution CFCtx BlockStates p with
      | none => acc
      | some ps =>
        match acc with
        | some st => some (joinStates Analysis Ops st ps)
        | none => some ps := by
  unfold joinPredStep predContribution
  cases p.bind (findBlock CFCtx) with
  | none => cases acc <;> rfl
  | some Pred =>
    by_cases h : Pred.hasNoReturnElement
    · simp only [h, if_true]
    · simp only [h, if_false]
      cases getSlot BlockStates Pred.blockID <;> cases acc <;> rfl

theorem foldl_joinPredStep_some {L E : Type} (CFCtx : ControlFlowContext)
    (Ops : EnvOps E) (Analysis : TypeErasedDataflowAnalysis L E)
    (BlockStates : Store L E) (l : List (Option BlockID))
    (st : TypeErasedDataflowAnalysisState L E) :
    l.foldl (joinPredStep CFCtx Ops Analysis BlockStates) (some st) =
      some ((l.filterMap (predContribution CFCtx BlockStates)).foldl
        (joinStates Analysis Ops) st) := by
  induction l generalizing st with
  | nil => rfl
  | cons p l ih =>
    rw [List.foldl_cons, joinPredStep_contribution, List.filterMap_cons]
    cases h : predContribution CFCtx BlockStates p with
    | none => simpa using ih st
    | some ps => simpa using ih (joinStates Analysis Ops st ps)

theorem foldl_joinPredStep_none {L E : Type} (CFCtx : ControlFlowContext)
    (Ops : EnvOps E) (Analysis : TypeErasedDataflowAnalysis L E)
    (BlockStates : Store L E) (l : List (Option BlockID)) :
    l.foldl (joinPredStep CFCtx Ops Analysis BlockStates) none =
      match l.filterMap (predContribution CFCtx BlockStates) with
      | [] => none
      | s :: rest => some (rest.foldl (joinStates Analysis Ops) s) := by
  induction l with
  | nil => rfl
  | cons p l ih =>
    rw [List.foldl_cons, joinPredStep_contribution, List.filterMap_cons]
    cases h : predContribution CFCtx BlockStates p with
    | none => simpa using ih
    | some ps => simp [foldl_joinPredStep_some]

/-- The predecessor join policy, characterized: the input state of a block is
the join of exactly the contributions of its pruned predecessor list, seeded
with the first contribution, or the initial state when nothing contributes. -/
theorem computeBlockInputState_characterization {L E : Type}
    (CFCtx : ControlFlowContext) (Ops : EnvOps E) (BlockStates : Store L E)
    (Block : CFGBlock) (InitEnv : E)
    (Analysis : TypeErasedDataflowAnalysis L E) :
    computeBlockInputState CFCtx Ops BlockStates Block InitEnv Analysis =
      joinedInputState Analysis Ops InitEnv
        ((prunedPreds CFCtx Block).filterMap
          (predContribution CFCtx BlockStates)) := by
  unfold computeBlockInputState joinedInputState
  dsimp only
  rw [foldl_joinPredStep_none]
  cases (prunedPreds CFCtx Block).filterMap
    (predContribution CFCtx BlockStates) <;> rfl

/-! ## Concrete fixtures used by witnesses -/

/-- A concrete Environment instantiation over `Nat` for witnesses. -/
def opsNat : EnvOps Nat where
  join := Nat.max
  equivalentTo := fun a b => a == b
  getThisPointeeStorageLocation := fun _ => 0
  getStorageLocation := fun _ _ => none
  getValue := fun _ _ => none
  setValue := fun e _ _ => e
  getChild := fun l f => l + f.fieldID
  transfer := fun _ _ e => e

/-- A concrete analysis plugin over a `Nat` lattice for witnesses. -/
def anNat : TypeErasedDataflowAnalysis Nat Nat where
  typeErasedInitialElement := 0
  transferTypeErased := fun S lat env => (lat + S, env)
  joinTypeErased := Nat.max
  isEqualTypeErased := fun a b => a == b
  applyBuiltinTransfer := false

/-- A block with no predecessors at all. -/
def blockNoPreds : CFGBlock :=
  ⟨0, [], [], [], false, false, none⟩

/-- A one-block context around `blockNoPreds`. -/
def cfgNoPreds : ControlFlowContext :=
  ⟨[blockNoPreds], blockNoPreds, fun _ => none⟩

/-! ## C3, C4, C5: the predecessor join policy -/

/-- C3: `computeBlockInputState` is total by construction (it returns a plain
state, not a fallible one); whenever no predecessor survives the skipping and
pruning steps, the returned input state is exactly the initial lattice element
of the plugin paired with the caller-supplied initial Environment. -/
theorem computeBlockInputState_default_when_no_surviving_pred {L E : Type}
    (CFCtx : ControlFlowContext) (Ops : EnvOps E) (BlockStates : Store L E)
    (Block : CFGBlock) (InitEnv : E)
    (Analysis : TypeErasedDataflowAnalysis L E)
    (h : ∀ p ∈ prunedPreds CFCtx Block,
      predContribution CFCtx BlockStates p = none) :
    computeBlockInputState CFCtx Ops BlockStates Block InitEnv Analysis =
      ⟨Analysis.typeErasedInitialElement, InitEnv⟩ := by
  rw [computeBlockInputState_characterization,
    List.filterMap_eq_nil_iff.mpr h]
  rfl

theorem computeBlockInputState_default_witness :
    (∀ p ∈ prunedPreds cfgNoPreds blockNoPreds,
      predContribution cfgNoPreds ([] : Store Nat Nat) p = none) ∧
    computeBlockInputState cfgNoPreds opsNat ([] : Store Nat Nat) blockNoPreds
      5 anNat = ⟨0, 5⟩ :=
  ⟨by decide,
   computeBlockInputState_default_when_no_surviving_pred cfgNoPreds opsNat
     ([] : Store Nat Nat) blockNoPreds 5 anNat (by decide)⟩

/-- C4: a predecessor contributes to the join if and only if its edge resolves
to a block (is non-null), that block is not flagged as containing a
non-returning element, and its Store slot is set; the input state is the join
of exactly the surviving contributions, merged by the lattice join of the
plugin paired with the join of the Environment. -/
theorem computeBlockInputState_join_characterization {L E : Type}
    (CFCtx : ControlFlowContext) (Ops : EnvOps E) (BlockStates : Store L E)
    (Block : CFGBlock) (InitEnv : E)
    (Analysis : TypeErasedDataflowAnalysis L E) :
    computeBlockInputState CFCtx Ops BlockStates Block InitEnv Analysis =
      joinedInputState Analysis Ops InitEnv
        ((prunedPreds CFCtx Block).filterMap
          (predContribution CFCtx BlockStates)) ∧
    ∀ p : Option BlockID,
      (predContribution CFCtx BlockStates p).isSome ↔
        ∃ Pred, p.bind (findBlock CFCtx) = some Pred ∧
          Pred.hasNoReturnElement = false ∧
          (getSlot BlockStates Pred.blockID).isSome := by
  refine ⟨computeBlockInputState_characterization CFCtx Ops BlockStates Block
    InitEnv Analysis, fun p => ?_⟩
  unfold predContribution
  cases p.bind (findBlock CFCtx) with
  | none => simp
  | some Pred =>
    by_cases h : Pred.hasNoReturnElement
    · simp [h]
    · simp only [Bool.not_eq_true] at h
      simp [h]

/-- C5: for a block whose terminator is a temporary-destructor branch and
whose first successor resolves to a block flagged non-returning, the
predecessor resolved by the statement-to-block lookup on the terminator
statement is erased from the (deduplicated) predecessor set before the join,
every other predecessor is retained, and the input state is the join of the
contributions of exactly the remaining predecessors. -/
theorem temporaryDtorsBranch_pruning {L E : Type}
    (CFCtx : ControlFlowContext) (Ops : EnvOps E) (BlockStates : Store L E)
    (Block Y : CFGBlock) (InitEnv : E)
    (Analysis : TypeErasedDataflowAnalysis L E) (y : BlockID) (TS : Stmt)
    (sb : BlockID)
    (h1 : Block.isTemporaryDtorsBranch = true)
    (h2 : Block.succs.head? = some (some y))
    (h3 : findBlock CFCtx y = some Y)
    (h4 : Y.hasNoReturnElement = true)
    (h5 : Block.terminatorStmt = some TS)
    (h6 : CFCtx.stmtToBlock TS = some sb) :
    prunedPreds CFCtx Block = Block.preds.dedup.erase (some sb) ∧
    some sb ∉ prunedPreds CFCtx Block ∧
    (∀ p ∈ Block.preds.dedup, p ≠ some sb → p ∈ prunedPreds CFCtx Block) ∧
    computeBlockInputState CFCtx Ops BlockStates Block InitEnv Analysis =
      joinedInputState Analysis Ops InitEnv
        ((Block.preds.dedup.erase (some sb)).filterMap
          (predContribution CFCtx BlockStates)) := by
  have hpruned : prunedPreds CFCtx Block = Block.preds.dedup.erase (some sb) := by
    unfold prunedPreds
    simp [h1, h2, h3, h4, h5, h6]
  refine ⟨hpruned, ?_, ?_, ?_⟩
  · rw [hpruned]
    exact (List.nodup_dedup Block.preds).not_mem_erase
  · intro p hp hne
    rw [hpruned]
    exact (List.mem_erase_of_ne hne).2 hp
  · rw [computeBlockInputState_characterization, hpruned]

/-- The short-circuit destructor pattern of the source comment: block `B4`
has a temporary-destructor-branch terminator, its first successor `B5` is the
non-returning destructor block, and the terminator statement funnels in from
predecessor `B3`, the branch that constructed the temporary. -/
def blockB2 : CFGBlock := ⟨2, [], [some 4], [], false, false, none⟩

def blockB3 : CFGBlock := ⟨3, [], [some 4], [], false, false, none⟩

def blockB4 : CFGBlock :=
  ⟨4, [some 2, some 3], [some 5, some 6], [], false, true, some 40⟩

def blockB5 : CFGBlock := ⟨5, [some 4], [], [], true, false, none⟩

def blockB6 : CFGBlock := ⟨6, [some 4], [], [], false, false, none⟩

def cfgDtors : ControlFlowContext :=
  ⟨[blockB2, blockB3, blockB4, blockB5, blockB6], blockB2,
   fun S => if S == 40 then some 3 else none⟩

/-- A store in which both `B2` (slot 2) and `B3` (slot 3) have been
evaluated, with distinct states. -/
def storeDtors : Store Nat Nat :=
  [none, none, some ⟨10, 1⟩, some ⟨99, 7⟩, none, none, none]

theorem temporaryDtorsBranch_pruning_witness :
    (blockB4.isTemporaryDtorsBranch = true ∧
     blockB4.succs.head? = some (some 5) ∧
     findBlock cfgDtors 5 = some blockB5 ∧
     blockB5.hasNoReturnElement = true ∧
     blockB4.terminatorStmt = some 40 ∧
     cfgDtors.stmtToBlock 40 = some 3) ∧
    (prunedPreds cfgDtors blockB4 = blockB4.preds.dedup.erase (some 3) ∧
     some 3 ∉ prunedPreds cfgDtors blockB4 ∧
     (∀ p ∈ blockB4.preds.dedup, p ≠ some 3 →
       p ∈ prunedPreds cfgDtors blockB4) ∧
     computeBlockInputState cfgDtors opsNat storeDtors blockB4 0 anNat =
       joinedInputState anNat opsNat 0
         ((blockB4.preds.dedup.erase (some 3)).filterMap
           (predContribution cfgDtors storeDtors))) ∧
    computeBlockInputState cfgDtors opsNat storeDtors blockB4 0 anNat =
      ⟨10, 1⟩ :=
  ⟨⟨rfl, rfl, by decide, rfl, rfl, rfl⟩,
   temporaryDtorsBranch_pruning cfgDtors opsNat storeDtors blockB4 blockB5 0
     anNat 5 40 3 rfl rfl (by decide) rfl rfl rfl,
   by decide⟩

/-! ## C6: the transfer engine evaluates elements in declaration order -/

/-- Modelled from the spec: the Transfer Engine contract (§4.3) as a
left-to-right recursion over the element list of the block — for a statement
element the builtin transfer is applied first exactly when the plugin opts in,
then the plugin transfer runs, and then the observer event is emitted when a
callback is supplied; an initializer element applies only under the
builtin-transfer flag; any other element kind is a no-op. -/
def transferElementsSpec {L E : Type} (Ops : EnvOps E)
    (CFCtx : ControlFlowContext) (BlockStates : Store L E)
    (Analysis : TypeErasedDataflowAnalysis L E)
    (HandleTransferredStmt : Bool) :
    List CFGElement → TypeErasedDataflowAnalysisState L E →
      TypeErasedDataflowAnalysisState L E × List (Event L E)
  | [], State => (State, [])
  | CFGElement.statement S :: Elements, State =>
    let State1 :=
      if Analysis.applyBuiltinTransfer then
        { State with
          Env := Ops.transfer (StmtToEnvMapImpl CFCtx BlockStates) S State.Env }
      else State
    let p := Analysis.transferTypeErased S State1.Lattice State1.Env
    let State2 : TypeErasedDataflowAnalysisState L E := ⟨p.1, p.2⟩
    let r := transferElementsSpec Ops CFCtx BlockStates Analysis
      HandleTransferredStmt Elements State2
    (r.1, (if HandleTransferredStmt then [(S, State2)] else []) ++ r.2)
  | CFGElement.initializer I :: Elements, State =>
    transferElementsSpec Ops CFCtx BlockStates Analysis HandleTransferredStmt
      Elements
      (if Analysis.applyBuiltinTransfer then
        transferCFGInitializer Ops I State
      else State)
  | CFGElement.other :: Elements, State =>
    transferElementsSpec Ops CFCtx BlockStates Analysis HandleTransferredStmt
      Elements State

theorem foldl_transferElementStep_spec {L E : Type} (Ops : EnvOps E)
    (CFCtx : ControlFlowContext) (BlockStates : Store L E)
    (Analysis : TypeErasedDataflowAnalysis L E)
    (HandleTransferredStmt : Bool) (Elements : List CFGElement)
    (st : TypeErasedDataflowAnalysisState L E) (evs : List (Event L E)) :
    Elements.foldl
      (transferElementStep Ops CFCtx BlockStates Analysis
        HandleTransferredStmt) (st, evs) =
      ((transferElementsSpec Ops CFCtx BlockStates Analysis
          HandleTransferredStmt Elements st).1,
       evs ++ (transferElementsSpec Ops CFCtx BlockStates Analysis
          HandleTransferredStmt Elements st).2) := by
  induction Elements generalizing st evs with
  | nil => simp [transferElementsSpec]
  | cons e es ih =>
    cases e with
    | statement S =>
      rw [List.foldl_cons]
      simp only [transferElementStep, transferCFGStmt, transferElementsSpec]
      rw [ih]
      simp [List.append_assoc]
    | initializer I =>
      rw [List.foldl_cons]
      simp only [transferElementStep, transferElementsSpec]
      by_cases h : Analysis.applyBuiltinTransfer <;> simp [h, ih]
    | other =>
      rw [List.foldl_cons]
      simp only [transferElementStep, transferElementsSpec]
      exact ih st evs

/-- C6: `transferBlock` evaluates the elements of the block in declaration
order, left to right, threading one running state from the joined input state;
per statement the builtin transfer applies exactly when the plugin opts in,
then the plugin transfer, and then the observer event carrying the statement
and the resulting state is emitted when a callback is supplied. -/
theorem transferBlock_elements_in_order {L E : Type} (Ops : EnvOps E)
    (CFCtx : ControlFlowContext) (BlockStates : Store L E) (Block : CFGBlock)
    (InitEnv : E) (Analysis : TypeErasedDataflowAnalysis L E)
    (HandleTransferredStmt : Bool) :
    transferBlock Ops CFCtx BlockStates Block InitEnv Analysis
        HandleTransferredStmt =
      transferElementsSpec Ops CFCtx BlockStates Analysis HandleTransferredStmt
        Block.elements
        (computeBlockInputState CFCtx Ops BlockStates Block InitEnv
          Analysis) := by
  unfold transferBlock
  rw [foldl_transferElementStep_spec]
  simp

/-! ## C7, C8: initializer transfer -/

/-- C7: when the storage location of the init expression or the value stored
there cannot be resolved in the Environment, `transferCFGInitializer` returns
the state unchanged — a silent no-op, not a failure. -/
theorem transferCFGInitializer_noop_when_unresolved {L E : Type}
    (Ops : EnvOps E) (CfgInit : CXXCtorInitializer)
    (State : TypeErasedDataflowAnalysisState L E)
    (h : Ops.getStorageLocation State.Env CfgInit.getInit = none ∨
      ∃ l, Ops.getStorageLocation State.Env CfgInit.getInit = some l ∧
        Ops.getValue State.Env l = none) :
    transferCFGInitializer Ops CfgInit State = State := by
  unfold transferCFGInitializer
  dsimp only
  rcases h with h | ⟨l, hl, hv⟩
  · rw [h]
  · simp only [hl, hv]

/-- C8: when the init expression location and value both resolve, the member
location under the receiver is set to a fresh reference value aliasing the
source location when the member has reference type, and to a copy of the
source value otherwise; the lattice element is untouched. -/
theorem transferCFGInitializer_binds_member {L E : Type} (Ops : EnvOps E)
    (CfgInit : CXXCtorInitializer)
    (State : TypeErasedDataflowAnalysisState L E) (l : Loc) (v : Value)
    (hl : Ops.getStorageLocation State.Env CfgInit.getInit = some l)
    (hv : Ops.getValue State.Env l = some v) :
    transferCFGInitializer Ops CfgInit State =
      (if CfgInit.getMember.isReferenceType then
        { State with
          Env := Ops.setValue State.Env
            (Ops.getChild (Ops.getThisPointeeStorageLocation State.Env)
              CfgInit.getMember)
            (Value.referenceValue l) }
      else
        { State with
          Env := Ops.setValue State.Env
            (Ops.getChild (Ops.getThisPointeeStorageLocation State.Env)
              CfgInit.getMember)
            v }) := by
  unfold transferCFGInitializer
  dsimp only
  simp only [hl, hv]

/-- A concrete Environment over association lists for the initializer
witnesses. -/
def opsMap : EnvOps (List (Nat × Value)) where
  join := fun a b => a ++ b
  equivalentTo := fun a b => decide (a = b)
  getThisPointeeStorageLocation := fun _ => 100
  getStorageLocation := fun _ S => if S == 0 then some 7 else none
  getValue := fun e l => (e.find? (fun p => p.1 == l)).map (fun p => p.2)
  setValue := fun e l v => (l, v) :: e
  getChild := fun l f => l + f.fieldID
  transfer := fun _ _ e => e

theorem transferCFGInitializer_noop_witness :
    (opsMap.getStorageLocation ([] : List (Nat × Value)) 0 = some 7 ∧
     opsMap.getValue ([] : List (Nat × Value)) 7 = none) ∧
    transferCFGInitializer opsMap ⟨0, ⟨1, false⟩⟩
      (⟨3, []⟩ : TypeErasedDataflowAnalysisState Nat (List (Nat × Value))) =
      ⟨3, []⟩ :=
  ⟨⟨rfl, rfl⟩,
   transferCFGInitializer_noop_when_unresolved opsMap ⟨0, ⟨1, false⟩⟩ ⟨3, []⟩
     (Or.inr ⟨7, rfl, rfl⟩)⟩

theorem transferCFGInitializer_binds_member_witness :
    (opsMap.getStorageLocation [(7, Value.opaqueValue 42)] 0 = some 7 ∧
     opsMap.getValue [(7, Value.opaqueValue 42)] 7 =
       some (Value.opaqueValue 42)) ∧
    transferCFGInitializer opsMap ⟨0, ⟨1, true⟩⟩
      (⟨3, [(7, Value.opaqueValue 42)]⟩ :
        TypeErasedDataflowAnalysisState Nat (List (Nat × Value))) =
      (if (⟨1, true⟩ : FieldDecl).isReferenceType then
        ⟨3, [(101, Value.referenceValue 7), (7, Value.opaqueValue 42)]⟩
      else
        ⟨3, [(101, Value.opaqueValue 42), (7, Value.opaqueValue 42)]⟩) ∧
    transferCFGInitializer opsMap ⟨0, ⟨1, true⟩⟩
      ⟨3, [(7, Value.opaqueValue 42)]⟩ =
      ⟨3, [(101, Value.referenceValue 7), (7, Value.opaqueValue 42)]⟩ :=
  ⟨⟨rfl, rfl⟩,
   transferCFGInitializer_binds_member opsMap ⟨0, ⟨1, true⟩⟩
     ⟨3, [(7, Value.opaqueValue 42)]⟩ 7 (Value.opaqueValue 42) rfl rfl,
   by decide⟩

/-! ## Store slot lemmas -/

theorem getSlot_setSlot_ne {L E : Type} (s : Store L E) (i j : Nat)
    (v : Option (TypeErasedDataflowAnalysisState L E)) (h : j ≠ i) :
    getSlot (setSlot s i v) j = getSlot s j := by
  unfold getSlot setSlot
  rw [List.getElem?_set_ne (fun he => h he.symm)]

theorem getSlot_setSlot_self {L E : Type} (s : Store L E) (i : Nat)
    (v : Option (TypeErasedDataflowAnalysisState L E)) (h : i < s.length) :
    getSlot (setSlot s i v) i = v := by
  unfold getSlot setSlot
  rw [List.getElem?_set_self h]
  rfl

theorem lt_length_of_getSlot_isSome {L E : Type} (s : Store L E) (i : Nat)
    (h : (getSlot s i).isSome) : i < s.length := by
  by_contra hge
  rw [getSlot, List.getElem?_eq_none (by omega)] at h
  simp at h

/-! ## One step of the fixpoint driver -/

/-- Whether the newly computed state of a block differs from what the Store
holds for it: it differs when no state is stored yet, or when the lattice
equality of the plugin or the equivalence of the Environments fails. -/
def blockStateChanged {L E : Type} (Ops : EnvOps E)
    (Analysis : TypeErasedDataflowAnalysis L E) (BlockStates : Store L E)
    (NewBlockState : TypeErasedDataflowAnalysisState L E) (bid : Nat) : Bool :=
  !(match getSlot BlockStates bid with
    | some Old =>
      Analysis.isEqualTypeErased Old.Lattice NewBlockState.Lattice &&
        Ops.equivalentTo Old.Env NewBlockState.Env
    | none => false)

/-- One unfolding of the driver loop on a dequeued block, phrased as the spec
describes it: the Store is written exactly when the new state differs from the
stored one, and the successors are enqueued exactly when it differs and the
block carries no non-returning element. -/
theorem runAnalysisLoop_step {L E : Type} (Ops : EnvOps E)
    (CFCtx : ControlFlowContext) (Analysis : TypeErasedDataflowAnalysis L E)
    (InitEnv : E) (r : Nat) (Block : CFGBlock) (rest : List CFGBlock)
    (BlockStates : Store L E) :
    runAnalysisLoop Ops CFCtx Analysis InitEnv (r + 1) (Block :: rest)
        BlockStates =
      runAnalysisLoop Ops CFCtx Analysis InitEnv r
        (if blockStateChanged Ops Analysis BlockStates
              (transferBlock Ops CFCtx BlockStates Block InitEnv Analysis
                false).1 Block.blockID &&
            !Block.hasNoReturnElement then
          enqueueSuccessors CFCtx rest Block
        else rest)
        (if blockStateChanged Ops Analysis BlockStates
              (transferBlock Ops CFCtx BlockStates Block InitEnv Analysis
                false).1 Block.blockID then
          setSlot BlockStates Block.blockID
            (some (transferBlock Ops CFCtx BlockStates Block InitEnv Analysis
              false).1)
        else BlockStates) := by
  simp only [runAnalysisLoop]
  unfold blockStateChanged
  cases hc : (match getSlot BlockStates Block.blockID with
      | some Old =>
        Analysis.isEqualTypeErased Old.Lattice
            (transferBlock Ops CFCtx BlockStates Block InitEnv Analysis
              false).1.Lattice &&
          Ops.equivalentTo Old.Env
            (transferBlock Ops CFCtx BlockStates Block InitEnv Analysis
              false).1.Env
      | none => false) with
  | true => simp [hc]
  | false =>
    cases hn : Block.hasNoReturnElement <;> simp [hc, hn]

/-- The instrumented dequeue counter unfolds the same way as the loop. -/
theorem runLoopDequeues_step {L E : Type} (Ops : EnvOps E)
    (CFCtx : ControlFlowContext) (Analysis : TypeErasedDataflowAnalysis L E)
    (InitEnv : E) (r : Nat) (Block : CFGBlock) (rest : List CFGBlock)
    (BlockStates : Store L E) :
    runLoopDequeues Ops CFCtx Analysis InitEnv (r + 1) (Block :: rest)
        BlockStates =
      1 + runLoopDequeues Ops CFCtx Analysis InitEnv r
        (if blockStateChanged Ops Analysis BlockStates
              (transferBlock Ops CFCtx BlockStates Block InitEnv Analysis
                false).1 Block.blockID &&
            !Block.hasNoReturnElement then
          enqueueSuccessors CFCtx rest Block
        else rest)
        (if blockStateChanged Ops Analysis BlockStates
              (transferBlock Ops CFCtx BlockStates Block InitEnv Analysis
                false).1 Block.blockID then
          setSlot BlockStates Block.blockID
            (some (transferBlock Ops CFCtx BlockStates Block InitEnv Analysis
              false).1)
        else BlockStates) := by
  simp only [runLoopDequeues]
  unfold blockStateChanged
  cases hc : (match getSlot BlockStates Block.blockID with
      | some Old =>
        Analysis.isEqualTypeErased Old.Lattice
            (transferBlock Ops CFCtx BlockStates Block InitEnv Analysis
              false).1.Lattice &&
          Ops.equivalentTo Old.Env
            (transferBlock Ops CFCtx BlockStates Block InitEnv Analysis
              false).1.Env
      | none => false) with
  | true => simp [hc]
  | false =>
    cases hn : Block.hasNoReturnElement <;> simp [hc, hn]

/-- The loop either returns a Store or the timeout failure; no other error is
ever produced. -/
theorem runAnalysisLoop_ok_or_timeout {L E : Type} (Ops : EnvOps E)
    (CFCtx : ControlFlowContext) (Analysis : TypeErasedDataflowAnalysis L E)
    (InitEnv : E) :
    ∀ (r : Nat) (wl : List CFGBlock) (s : Store L E),
      (∃ st, runAnalysisLoop Ops CFCtx Analysis InitEnv r wl s =
        Except.ok st) ∨
      runAnalysisLoop Ops CFCtx Analysis InitEnv r wl s =
        Except.error timeoutError := by
  intro r
  induction r with
  | zero =>
    intro wl s
    cases wl with
    | nil => exact Or.inl ⟨s, rfl⟩
    | cons B rest => exact Or.inr rfl
  | succ r ih =>
    intro wl s
    cases wl with
    | nil => exact Or.inl ⟨s, rfl⟩
    | cons B rest =>
      rw [runAnalysisLoop_step]
      exact ih _ _

/-- The loop never changes the number of slots of the Store. -/
theorem runAnalysisLoop_length {L E : Type} (Ops : EnvOps E)
    (CFCtx : ControlFlowContext) (Analysis : TypeErasedDataflowAnalysis L E)
    (InitEnv : E) :
    ∀ (r : Nat) (wl : List CFGBlock) (s : Store L E) (st : Store L E),
      runAnalysisLoop Ops CFCtx Analysis InitEnv r wl s = Except.ok st →
      st.length = s.length := by
  intro r
  induction r with
  | zero =>
    intro wl s st h
    cases wl with
    | nil => cases h; rfl
    | cons B rest => cases h
  | succ r ih =>
    intro wl s st h
    cases wl with
    | nil => cases h; rfl
    | cons B rest =>
      rw [runAnalysisLoop_step] at h
      have := ih _ _ _ h
      rw [this]
      cases blockStateChanged Ops Analysis s
        (transferBlock Ops CFCtx s B InitEnv Analysis false).1 B.blockID <;>
        simp [setSlot]

/-- A Store slot once set stays set for the rest of the run. -/
theorem runAnalysisLoop_isSome {L E : Type} (Ops : EnvOps E)
    (CFCtx : ControlFlowContext) (Analysis : TypeErasedDataflowAnalysis L E)
    (InitEnv : E) :
    ∀ (r : Nat) (wl : List CFGBlock) (s : Store L E) (st : Store L E)
      (i : Nat), (getSlot s i).isSome →
      runAnalysisLoop Ops CFCtx Analysis InitEnv r wl s = Except.ok st →
      (getSlot st i).isSome := by
  intro r
  induction r with
  | zero =>
    intro wl s st i hi h
    cases wl with
    | nil => cases h; exact hi
    | cons B rest => cases h
  | succ r ih =>
    intro wl s st i hi h
    cases wl with
    | nil => cases h; exact hi
    | cons B rest =>
      rw [runAnalysisLoop_step] at h
      refine ih _ _ _ i ?_ h
      cases blockStateChanged Ops Analysis s
        (transferBlock Ops CFCtx s B InitEnv Analysis false).1 B.blockID with
      | false => exact hi
      | true =>
        simp only [if_true]
        by_cases hib : i = B.blockID
        · subst hib
          rw [getSlot_setSlot_self s B.blockID _
            (lt_length_of_getSlot_isSome s B.blockID hi)]
          rfl
        · rw [getSlot_setSlot_ne s B.blockID i _ hib]
          exact hi

/-- Whenever the loop reports the timeout failure with `r` dequeues still
allowed, it has performed exactly `r + 1` dequeues: `r` fully processed and
the final one on which the cap fires. -/
theorem runLoopDequeues_of_error {L E : Type} (Ops : EnvOps E)
    (CFCtx : ControlFlowContext) (Analysis : TypeErasedDataflowAnalysis L E)
    (InitEnv : E) :
    ∀ (r : Nat) (wl : List CFGBlock) (s : Store L E),
      runAnalysisLoop Ops CFCtx Analysis InitEnv r wl s =
        Except.error timeoutError →
      runLoopDequeues Ops CFCtx Analysis InitEnv r wl s = r + 1 := by
  intro r
  induction r with
  | zero =>
    intro wl s h
    cases wl with
    | nil => cases h
    | cons B rest => rfl
  | succ r ih =>
    intro wl s h
    cases wl with
    | nil => cases h
    | cons B rest =>
      rw [runAnalysisLoop_step] at h
      rw [runLoopDequeues_step, ih _ _ h]
      omega

/-! ## C1: shape of the result of the entry point -/

/-- C1: the entry point returns either the timeout failure or a Store with
exactly one slot per block identifier of the graph, in which the slot of the
entry block is set; a slot that is unset in the result therefore never belongs
to the entry block. -/
theorem run_returns_timeout_or_full_store {L E : Type} (Ops : EnvOps E)
    (CFCtx : ControlFlowContext) (Analysis : TypeErasedDataflowAnalysis L E)
    (InitEnv : E)
    (hentry : CFCtx.entry.blockID < CFCtx.blocks.length) :
    runTypeErasedDataflowAnalysis Ops CFCtx Analysis InitEnv =
        Except.error timeoutError ∨
      ∃ st, runTypeErasedDataflowAnalysis Ops CFCtx Analysis InitEnv =
          Except.ok st ∧
        st.length = CFCtx.blocks.length ∧
        (getSlot st CFCtx.entry.blockID).isSome = true ∧
        ∀ i, getSlot st i = none → i ≠ CFCtx.entry.blockID := by
  unfold runTypeErasedDataflowAnalysis
  dsimp only
  rcases runAnalysisLoop_ok_or_timeout Ops CFCtx Analysis InitEnv MaxIterations
      (enqueueSuccessors CFCtx [] CFCtx.entry)
      (setSlot (List.replicate CFCtx.blocks.length none) CFCtx.entry.blockID
        (some ⟨Analysis.typeErasedInitialElement, InitEnv⟩)) with
    hok | herr
  · rcases hok with ⟨st, hok⟩
    right
    have hsome : (getSlot
        (setSlot (List.replicate CFCtx.blocks.length none)
          CFCtx.entry.blockID
          (some ⟨Analysis.typeErasedInitialElement, InitEnv⟩))
        CFCtx.entry.blockID).isSome := by
      rw [getSlot_setSlot_self _ _ _ (by simpa using hentry)]
      rfl
    have hst : (getSlot st CFCtx.entry.blockID).isSome :=
      runAnalysisLoop_isSome Ops CFCtx Analysis InitEnv _ _ _ _ _ hsome hok
    refine ⟨st, hok, ?_, hst, ?_⟩
    · rw [runAnalysisLoop_length Ops CFCtx Analysis InitEnv _ _ _ _ hok]
      simp [setSlot]
    · intro i hnone hi
      rw [← hi, hnone] at hst
      cases hst
  · exact Or.inl herr

theorem run_returns_full_store_witness :
    (cfgNoPreds.entry.blockID < cfgNoPreds.blocks.length) ∧
    (runTypeErasedDataflowAnalysis opsNat cfgNoPreds anNat 5 =
        Except.error timeoutError ∨
      ∃ st, runTypeErasedDataflowAnalysis opsNat cfgNoPreds anNat 5 =
          Except.ok st ∧
        st.length = cfgNoPreds.blocks.length ∧
        (getSlot st cfgNoPreds.entry.blockID).isSome = true ∧
        ∀ i, getSlot st i = none → i ≠ cfgNoPreds.entry.blockID) :=
  ⟨by decide,
   run_returns_timeout_or_full_store opsNat cfgNoPreds anNat 5 (by decide)⟩

/-! ## C9, C10: one driver step -/

/-- C9: on every driver step the successors of the dequeued block are enqueued
exactly when the newly computed state differs, by the lattice equality of the
plugin and the equivalence of the Environments, from a previously stored
state, and the block is not flagged as containing a non-returning element; in
particular a dequeued block flagged non-returning never schedules its
successors. -/
theorem step_enqueues_successors_iff_changed_and_returning {L E : Type}
    (Ops : EnvOps E) (CFCtx : ControlFlowContext)
    (Analysis : TypeErasedDataflowAnalysis L E) (InitEnv : E) (r : Nat)
    (Block : CFGBlock) (rest : List CFGBlock) (BlockStates : Store L E) :
    runAnalysisLoop Ops CFCtx Analysis InitEnv (r + 1) (Block :: rest)
        BlockStates =
      runAnalysisLoop Ops CFCtx Analysis InitEnv r
        (if blockStateChanged Ops Analysis BlockStates
              (transferBlock Ops CFCtx BlockStates Block InitEnv Analysis
                false).1 Block.blockID &&
            !Block.hasNoReturnElement then
          enqueueSuccessors CFCtx rest Block
        else rest)
        (if blockStateChanged Ops Analysis BlockStates
              (transferBlock Ops CFCtx BlockStates Block InitEnv Analysis
                false).1 Block.blockID then
          setSlot BlockStates Block.blockID
            (some (transferBlock Ops CFCtx BlockStates Block InitEnv Analysis
              false).1)
        else BlockStates) :=
  runAnalysisLoop_step Ops CFCtx Analysis InitEnv r Block rest BlockStates

/-- C10: computing the candidate state of the dequeued block reads the Store
but returns a plain state (`computeBlockInputState` and `transferBlock` take
the Store as an input and cannot write it), and during one driver step the
only Store write is to the slot of the dequeued block: every other slot is
unchanged across the step. -/
theorem step_frame_only_dequeued_slot {L E : Type} (Ops : EnvOps E)
    (CFCtx : ControlFlowContext) (Analysis : TypeErasedDataflowAnalysis L E)
    (InitEnv : E) (r : Nat) (Block : CFGBlock) (rest : List CFGBlock)
    (BlockStates : Store L E) (j : Nat) (hj : j ≠ Block.blockID) :
    getSlot
        (if blockStateChanged Ops Analysis BlockStates
              (transferBlock Ops CFCtx BlockStates Block InitEnv Analysis
                false).1 Block.blockID then
          setSlot BlockStates Block.blockID
            (some (transferBlock Ops CFCtx BlockStates Block InitEnv Analysis
              false).1)
        else BlockStates) j = getSlot BlockStates j ∧
    runAnalysisLoop Ops CFCtx Analysis InitEnv (r + 1) (Block :: rest)
        BlockStates =
      runAnalysisLoop Ops CFCtx Analysis InitEnv r
        (if blockStateChanged Ops Analysis BlockStates
              (transferBlock Ops CFCtx BlockStates Block InitEnv Analysis
                false).1 Block.blockID &&
            !Block.hasNoReturnElement then
          enqueueSuccessors CFCtx rest Block
        else rest)
        (if blockStateChanged Ops Analysis BlockStates
              (transferBlock Ops CFCtx BlockStates Block InitEnv Analysis
                false).1 Block.blockID then
          setSlot BlockStates Block.blockID
            (some (transferBlock Ops CFCtx BlockStates Block InitEnv Analysis
              false).1)
        else BlockStates) := by
  constructor
  · cases blockStateChanged Ops Analysis BlockStates
      (transferBlock Ops CFCtx BlockStates Block InitEnv Analysis
        false).1 Block.blockID with
    | false => rfl
    | true =>
      simp only [if_true]
      exact getSlot_setSlot_ne BlockStates Block.blockID j _ hj
  · exact runAnalysisLoop_step Ops CFCtx Analysis InitEnv r Block rest
      BlockStates

/-! ## C2: the iteration cap -/

/-- Entry block of a self-loop CFG. -/
def entryBlockLoop : CFGBlock := ⟨0, [], [some 1], [], false, false, none⟩

/-- A block with a self-loop: its only successor (and predecessor) is itself,
so each processing re-enqueues it. -/
def loopBlock : CFGBlock :=
  ⟨1, [some 1], [some 1], [CFGElement.statement 5], false, false, none⟩

def cfgLoop : ControlFlowContext :=
  ⟨[entryBlockLoop, loopBlock], entryBlockLoop, fun _ => none⟩

/-- A crafted non-converging plugin: its transfer is the identity but its
equality always answers `false`, so a computed state never compares equal to
the stored one and the fixpoint is never reached. -/
def anBad : TypeErasedDataflowAnalysis Nat Nat where
  typeErasedInitialElement := 0
  transferTypeErased := fun _ lat env => (lat, env)
  joinTypeErased := fun a _ => a
  isEqualTypeErased := fun _ _ => false
  applyBuiltinTransfer := false

/-- The Store the non-converging run reaches after its first dequeue and then
keeps forever. -/
def sFix : Store Nat Nat := [some ⟨0, 0⟩, some ⟨0, 0⟩]

theorem runLoop_anBad_error :
    ∀ r, runAnalysisLoop opsNat cfgLoop anBad 0 r [loopBlock] sFix =
      Except.error timeoutError := by
  intro r
  induction r with
  | zero => rfl
  | succ r ih => exact ih

theorem runLoop_anBad_error_from_start :
    ∀ r, runAnalysisLoop opsNat cfgLoop anBad 0 (r + 1) [loopBlock]
        [some ⟨0, 0⟩, none] =
      Except.error timeoutError := by
  intro r
  exact runLoop_anBad_error r

/-- C2: the cap is 65536; every run of the entry point either returns a Store
or the one timeout failure (the only failure the engine produces); on the
crafted non-converging plugin `anBad` the entry point reports the timeout
failure, and the number of dequeues performed is exactly the cap plus the one
dequeue on which the cap check fires. -/
theorem iteration_cap_timeout_behavior :
    MaxIterations = 65536 ∧
    (∀ (L E : Type) (Ops : EnvOps E) (CFCtx : ControlFlowContext)
        (Analysis : TypeErasedDataflowAnalysis L E) (InitEnv : E),
      (∃ st, runTypeErasedDataflowAnalysis Ops CFCtx Analysis InitEnv =
        Except.ok st) ∨
      runTypeErasedDataflowAnalysis Ops CFCtx Analysis InitEnv =
        Except.error timeoutError) ∧
    runTypeErasedDataflowAnalysis opsNat cfgLoop anBad 0 =
      Except.error timeoutError ∧
    runLoopDequeues opsNat cfgLoop anBad 0 MaxIterations
      (enqueueSuccessors cfgLoop [] cfgLoop.entry)
      (setSlot (List.replicate cfgLoop.blocks.length none)
        cfgLoop.entry.blockID (some ⟨anBad.typeErasedInitialElement, 0⟩)) =
      MaxIterations + 1 := by
  refine ⟨rfl, ?_, ?_, ?_⟩
  · intro L E Ops CFCtx Analysis InitEnv
    unfold runTypeErasedDataflowAnalysis
    dsimp only
    exact runAnalysisLoop_ok_or_timeout Ops CFCtx Analysis InitEnv _ _ _
  · exact runLoop_anBad_error_from_start 65535
  · apply runLoopDequeues_of_error
    exact runLoop_anBad_error_from_start 65535

theorem step_frame_only_dequeued_slot_witness :
    (0 : Nat) ≠ loopBlock.blockID ∧
    (getSlot
        (if blockStateChanged opsNat anBad sFix
              (transferBlock opsNat cfgLoop sFix loopBlock 0 anBad false).1
              loopBlock.blockID then
          setSlot sFix loopBlock.blockID
            (some (transferBlock opsNat cfgLoop sFix loopBlock 0 anBad
              false).1)
        else sFix) 0 = getSlot sFix 0 ∧
     runAnalysisLoop opsNat cfgLoop anBad 0 (0 + 1) (loopBlock :: []) sFix =
       runAnalysisLoop opsNat cfgLoop anBad 0 0
         (if blockStateChanged opsNat anBad sFix
               (transferBlock opsNat cfgLoop sFix loopBlock 0 anBad false).1
               loopBlock.blockID &&
             !loopBlock.hasNoReturnElement then
           enqueueSuccessors cfgLoop [] loopBlock
         else [])
         (if blockStateChanged opsNat anBad sFix
               (transferBlock opsNat cfgLoop sFix loopBlock 0 anBad false).1
               loopBlock.blockID then
           setSlot sFix loopBlock.blockID
             (some (transferBlock opsNat cfgLoop sFix loopBlock 0 anBad
               false).1)
         else sFix)) :=
  ⟨by decide,
   step_frame_only_dequeued_slot opsNat cfgLoop anBad 0 0 loopBlock [] sFix 0
     (by decide)⟩


end Dataflow
